import Mathlib

/-!
Shallow embedding of the Ford support chat client
(`FordSupportChat.jsx`): session lifecycle (`startChatSession`),
message exchange (`sendMessage`, with its inline response-body
classification factored as `classify`), and the input-gate entry
points (the send button and `handleChatKeyDown`).

JS strings are modelled as their character sequences (`JStr`), with
the string operations the component uses (`trim`, `startsWith`,
`substring`/`drop`, concatenation) defined by structural recursion so
that every definition evaluates.  `trim` strips the ASCII whitespace
characters; this covers every body the backend protocol produces.

Nondeterminism of the runtime is made explicit:
* `Date.now()` readings become `Nat` clock parameters (one reading at
  send start, one at catch time);
* the network interaction becomes an `Except` value: `.error detail`
  when the `fetch`/ok-check/body-read threw (including the non-2xx
  branch, which the code turns into a thrown `Error`), `.ok` with the
  received data otherwise (for `sendMessage`, the list of decoded
  body chunks in arrival order).
-/

namespace FordSupport

/-- A JS string, as its sequence of characters. -/
abbrev JStr := List Char

/-- Character list of a Lean string literal. -/
def str (s : String) : JStr := s.toList

/-- `String.prototype.trimStart`: drop leading whitespace. -/
def jsTrimLeft : JStr → JStr
  | [] => []
  | c :: cs => if c.isWhitespace then jsTrimLeft cs else c :: cs

/-- `String.prototype.trimEnd`: drop trailing whitespace. -/
def jsTrimRight (s : JStr) : JStr := (jsTrimLeft s.reverse).reverse

/-- `String.prototype.trim`: drop whitespace at both ends. -/
def jsTrim (s : JStr) : JStr := jsTrimRight (jsTrimLeft s)

/-- `s.startsWith(p)`. -/
def jsStartsWith (s p : JStr) : Bool := p.isPrefixOf s

/-- Message sender: the `sender: 'user' | 'bot'` field. -/
inductive Sender where
  | user
  | bot
deriving DecidableEq, Repr

/-- One conversation message, as built by the component.  The JS
objects omit `isStreaming`/`isError` when falsy; omitted fields are
modelled as `false`.  `timestamp` models the clock reading used for
`toLocaleTimeString()`. -/
structure Message where
  id : Nat
  text : JStr
  sender : Sender
  isStreaming : Bool
  isError : Bool
  timestamp : Nat
deriving DecidableEq, Repr

/-- The component's state variables (`useState` hooks). -/
structure ChatState where
  messages : List Message
  inputMessage : JStr
  isSending : Bool
  isConnecting : Bool
  sessionId : Option JStr
deriving DecidableEq, Repr

/-- Initial hook values: `[]`, `''`, `false`, `false`, `null`. -/
def initialState : ChatState :=
  { messages := [], inputMessage := [], isSending := false,
    isConnecting := false, sessionId := none }

/-- JS truthiness test used by `!sessionId`: `null` and the empty
string are falsy. -/
def sessionFalsy : Option JStr → Bool
  | none => true
  | some sid => sid.isEmpty

/-- Environment of one `startChatSession` call: the `Date.now()`
reading and the network result (`.ok sid` when the call returned 2xx
and the JSON carried `session_id`, `.error detail` when `fetch`
threw, the status was non-2xx, or the body was unreadable). -/
structure StartEnv where
  now : Nat
  result : Except JStr JStr

/-- The fixed greeting text seeded on successful connect. -/
def greetingText : JStr :=
  str "Welcome! I'm your Ford Customer Support assistant. How can I help?"

/-- The greeting message built on successful connect. -/
def greetingMsg (t : Nat) : Message :=
  { id := t, text := greetingText, sender := .bot,
    isStreaming := false, isError := false, timestamp := t }

/-- `startChatSession`: on success store the session id and replace
the conversation with the single greeting; on any failure alert (no
conversation change) and set the session id to `null`.  `isConnecting`
is set at entry and cleared in `finally`, hence `false` at return. -/
def startChatSession (env : StartEnv) (s : ChatState) : ChatState :=
  match env.result with
  | .ok sid =>
      { s with
        isConnecting := false
        sessionId := some sid
        messages := [greetingMsg env.now] }
  | .error _ =>
      { s with isConnecting := false, sessionId := none }

/-- Environment of one `sendMessage` call: `Date.now()` at send start
(`sendNow`), `Date.now()` at catch time (`catchNow`), and the network
result — `.error detail` when the `fetch`/ok-check/body-read threw,
`.ok chunks` with the decoded body chunks in arrival order. -/
structure SendEnv where
  sendNow : Nat
  catchNow : Nat
  result : Except JStr (List JStr)

/-- Classification outcome of a completed exchange (§4.3 taxonomy). -/
inductive Outcome where
  | transportError (detail : JStr)
  | success (payload : JStr)
  | malformedResponse
  | emptyResponse
deriving DecidableEq, Repr

/-- The response-frame decision logic inlined in `sendMessage`: an
exception wins; otherwise trim the drained buffer, check the `data:`
marker (`startsWith`, then `substring(5).trim()`), then distinguish
non-empty from empty leftovers. -/
def classify (result : Except JStr JStr) : Outcome :=
  match result with
  | .error detail => .transportError detail
  | .ok buffer =>
      let messageBlock := jsTrim buffer
      if jsStartsWith messageBlock (str "data:") then
        .success (jsTrim (messageBlock.drop 5))
      else if ! messageBlock.isEmpty then
        .malformedResponse
      else
        .emptyResponse

/-- Fixed literal shown for a non-empty body without the marker. -/
def malformedText : JStr := str "Error: Received malformed response from server."

/-- Fixed literal shown for an empty body. -/
def noResponseText : JStr := str "No response from server."

/-- Text of the catch-path error message, derived from the exception
detail: `Something went wrong: ${error.message}. Please try again.` -/
def transportText (detail : JStr) : JStr :=
  str "Something went wrong: " ++ detail ++ str ". Please try again."

/-- The optimistic `Complete` user message appended at send start. -/
def userMsg (t : Nat) (text : JStr) : Message :=
  { id := t, text := text, sender := .user,
    isStreaming := false, isError := false, timestamp := t }

/-- The `Pending` bot placeholder (`id: Date.now() + 1`, empty text,
`isStreaming: true`). -/
def pendingBot (t : Nat) : Message :=
  { id := t + 1, text := [], sender := .bot,
    isStreaming := true, isError := false, timestamp := t }

/-- The brand-new error message appended on the catch path
(`id: Date.now() + 2`, `isError: true`). -/
def transportBot (cn : Nat) (detail : JStr) : Message :=
  { id := cn + 2, text := transportText detail, sender := .bot,
    isStreaming := false, isError := true, timestamp := cn }

/-- How each outcome updates the message list holding the placeholder:
the three body outcomes map over the list mutating the message whose
id matches the placeholder id; the transport outcome filters the
placeholder out and appends `transportBot`. -/
def applyOutcome (placeholderId : Nat) (catchNow : Nat) (o : Outcome)
    (msgs : List Message) : List Message :=
  match o with
  | .success content =>
      msgs.map fun m =>
        if m.id = placeholderId then
          { m with text := content, isStreaming := false }
        else m
  | .malformedResponse =>
      msgs.map fun m =>
        if m.id = placeholderId then
          { m with text := malformedText, isError := true, isStreaming := false }
        else m
  | .emptyResponse =>
      msgs.map fun m =>
        if m.id = placeholderId then
          { m with text := noResponseText, isError := true, isStreaming := false }
        else m
  | .transportError detail =>
      (msgs.filter fun m => ! (m.id == placeholderId)) ++ [transportBot catchNow detail]

/-- `sendMessage`: guard `!inputMessage.trim() || !sessionId`; append
the user message and the pending placeholder; clear the input and
raise the latch; drain the chunked body into one buffer (chunk
concatenation); classify; apply the outcome; `finally` drop the
latch. -/
def sendMessage (env : SendEnv) (s : ChatState) : ChatState :=
  if (jsTrim s.inputMessage).isEmpty || sessionFalsy s.sessionId then s
  else
    let botMessagePlaceholderId := env.sendNow + 1
    let pending := s.messages ++ [userMsg env.sendNow s.inputMessage]
        ++ [pendingBot env.sendNow]
    let outcome := classify (env.result.map List.flatten)
    { s with
      messages := applyOutcome botMessagePlaceholderId env.catchNow outcome pending
      inputMessage := []
      isSending := false }

/-- The send button: `disabled={!inputMessage.trim() || isSending}`. -/
def sendButtonDisabled (s : ChatState) : Bool :=
  (jsTrim s.inputMessage).isEmpty || s.isSending

/-- A click of the send button: invokes `sendMessage` unless the
button is disabled. -/
def clickSend (env : SendEnv) (s : ChatState) : ChatState :=
  if sendButtonDisabled s then s else sendMessage env s

/-- Relevant fields of a keyboard event. -/
structure KeyEvent where
  key : JStr
  shiftKey : Bool
  ctrlKey : Bool
  altKey : Bool
  metaKey : Bool
deriving DecidableEq, Repr

/-- `handleChatKeyDown`: on Enter without Shift, prevent the default
(no literal line break) and send when the input trims non-empty and
no send is outstanding.  Returns the next state and whether
`preventDefault()` was called. -/
def handleChatKeyDown (e : KeyEvent) (env : SendEnv) (s : ChatState) :
    ChatState × Bool :=
  if e.key == str "Enter" && ! e.shiftKey then
    if ! (jsTrim s.inputMessage).isEmpty && ! s.isSending then
      (sendMessage env s, true)
    else
      (s, true)
  else
    (s, false)

/-- Typing in the textarea (`onChange`); the textarea is disabled
while a send is outstanding. -/
def setInputMessage (text : JStr) (s : ChatState) : ChatState :=
  if s.isSending then s else { s with inputMessage := text }

/-- One user-interface event. -/
inductive Op where
  | start (env : StartEnv)
  | typeInput (text : JStr)
  | click (env : SendEnv)
  | keyDown (e : KeyEvent) (env : SendEnv)

/-- Effect of one event on the component state. -/
def step (s : ChatState) (op : Op) : ChatState :=
  match op with
  | .start env => startChatSession env s
  | .typeInput t => setInputMessage t s
  | .click env => clickSend env s
  | .keyDown e env => (handleChatKeyDown e env s).1

/-- A run of the client: events applied in order. -/
def run (s : ChatState) (ops : List Op) : ChatState :=
  ops.foldl step s

/-- The placeholder after the success mutation: same id and position,
text set to the payload, streaming stopped. -/
def completedBot (t : Nat) (content : JStr) : Message :=
  { id := t + 1, text := content, sender := .bot,
    isStreaming := false, isError := false, timestamp := t }

/-- The placeholder after the malformed-body mutation. -/
def malformedBot (t : Nat) : Message :=
  { id := t + 1, text := malformedText, sender := .bot,
    isStreaming := false, isError := true, timestamp := t }

/-- The placeholder after the empty-body mutation. -/
def noResponseBot (t : Nat) : Message :=
  { id := t + 1, text := noResponseText, sender := .bot,
    isStreaming := false, isError := true, timestamp := t }

/-- Message ids strictly increase along the conversation. -/
def idsSorted (msgs : List Message) : Prop :=
  List.Chain' (fun a b => a.id < b.id) msgs

/-- Clock soundness of one event: any event that issues a send must
read a start clock above every id already present, and its catch-time
clock reading cannot precede its start reading. -/
def opClockOK (s : ChatState) : Op → Prop
  | .start _ => True
  | .typeInput _ => True
  | .click env =>
      (∀ m ∈ s.messages, m.id < env.sendNow) ∧ env.sendNow ≤ env.catchNow
  | .keyDown _ env =>
      (∀ m ∈ s.messages, m.id < env.sendNow) ∧ env.sendNow ≤ env.catchNow

/-- A connected chat mid-conversation, used to instantiate theorems. -/
def sampleChat : ChatState :=
  { messages := [greetingMsg 1], inputMessage := str "hi",
    isSending := false, isConnecting := false,
    sessionId := some (str "sess") }

/-- An Enter keypress with the Control modifier held. -/
def ctrlEnter : KeyEvent :=
  { key := str "Enter", shiftKey := false, ctrlKey := true,
    altKey := false, metaKey := false }

/-- An Enter keypress with the Shift modifier held. -/
def shiftEnter : KeyEvent :=
  { key := str "Enter", shiftKey := true, ctrlKey := false,
    altKey := false, metaKey := false }

/-- A connected chat with a send already outstanding. -/
def busyChat : ChatState :=
  { sampleChat with isSending := true }

/-- A run in which `Date.now()` returns the same millisecond reading
for the connect and for the following send. -/
def duplicateIdTrace : List Op :=
  [ .start ⟨5, .ok (str "sess")⟩,
    .typeInput (str "hello"),
    .click ⟨5, 5, .ok [str "data: hi"]⟩ ]

/-! ### Helper lemmas -/

lemma map_keep_of_fresh (pid : Nat) (f : Message → Message)
    (msgs : List Message) (h : ∀ m ∈ msgs, m.id ≠ pid) :
    msgs.map (fun m => if m.id = pid then f m else m) = msgs := by
  induction msgs with
  | nil => rfl
  | cons m rest ih =>
      simp only [List.map_cons, List.cons.injEq]
      exact ⟨if_neg (h m (by simp)), ih fun x hx => h x (by simp [hx])⟩

lemma filter_keep_of_fresh (pid : Nat)
    (msgs : List Message) (h : ∀ m ∈ msgs, m.id ≠ pid) :
    (msgs.filter fun m => ! (m.id == pid)) = msgs :=
  List.filter_eq_self.mpr fun m hm => by simp [h m hm]

lemma applyOutcome_success_eq (pid cn : Nat) (content : JStr)
    (msgs : List Message) (ph : Message) (hph : ph.id = pid)
    (h : ∀ m ∈ msgs, m.id ≠ pid) :
    applyOutcome pid cn (.success content) (msgs ++ [ph]) =
      msgs ++ [{ ph with text := content, isStreaming := false }] := by
  simp only [applyOutcome, List.map_append, map_keep_of_fresh pid _ msgs h,
    List.map_cons, List.map_nil, if_pos hph]

lemma applyOutcome_malformed_eq (pid cn : Nat)
    (msgs : List Message) (ph : Message) (hph : ph.id = pid)
    (h : ∀ m ∈ msgs, m.id ≠ pid) :
    applyOutcome pid cn .malformedResponse (msgs ++ [ph]) =
      msgs ++
        [{ ph with text := malformedText, isError := true, isStreaming := false }] := by
  simp only [applyOutcome, List.map_append, map_keep_of_fresh pid _ msgs h,
    List.map_cons, List.map_nil, if_pos hph]

lemma applyOutcome_empty_eq (pid cn : Nat)
    (msgs : List Message) (ph : Message) (hph : ph.id = pid)
    (h : ∀ m ∈ msgs, m.id ≠ pid) :
    applyOutcome pid cn .emptyResponse (msgs ++ [ph]) =
      msgs ++
        [{ ph with text := noResponseText, isError := true, isStreaming := false }] := by
  simp only [applyOutcome, List.map_append, map_keep_of_fresh pid _ msgs h,
    List.map_cons, List.map_nil, if_pos hph]

lemma applyOutcome_transport_eq (pid cn : Nat) (d : JStr)
    (msgs : List Message) (ph : Message) (hph : ph.id = pid)
    (h : ∀ m ∈ msgs, m.id ≠ pid) :
    applyOutcome pid cn (.transportError d) (msgs ++ [ph]) =
      msgs ++ [transportBot cn d] := by
  simp only [applyOutcome, List.filter_append, filter_keep_of_fresh pid msgs h]
  simp [hph]

lemma classify_ok_data (buffer : JStr)
    (h : jsStartsWith (jsTrim buffer) (str "data:") = true) :
    classify (.ok buffer) = .success (jsTrim ((jsTrim buffer).drop 5)) := by
  simp [classify, h]

lemma classify_ok_malformed (buffer : JStr)
    (h1 : jsStartsWith (jsTrim buffer) (str "data:") = false)
    (h2 : (jsTrim buffer).isEmpty = false) :
    classify (.ok buffer) = .malformedResponse := by
  simp [classify, h1, h2]

lemma classify_ok_empty (buffer : JStr) (h : (jsTrim buffer).isEmpty = true) :
    classify (.ok buffer) = .emptyResponse := by
  have h' : jsTrim buffer = [] := List.isEmpty_iff.mp h
  have hns : jsStartsWith ([] : JStr) (str "data:") = false := by decide
  simp [classify, h', hns]

lemma setInputMessage_messages (t : JStr) (s : ChatState) :
    (setInputMessage t s).messages = s.messages := by
  unfold setInputMessage
  split <;> rfl

lemma idsSorted_nodup {msgs : List Message} (h : idsSorted msgs) :
    (msgs.map Message.id).Nodup := by
  have h' : List.Chain' (· < ·) (msgs.map Message.id) :=
    (List.chain'_map Message.id).mpr h
  have hp : (msgs.map Message.id).Pairwise (· < ·) :=
    List.chain'_iff_pairwise.mp h'
  exact hp.imp Nat.ne_of_lt

lemma idsSorted_append_two {msgs : List Message} {a b : Message}
    (h : idsSorted msgs) (ha : ∀ m ∈ msgs, m.id < a.id) (hab : a.id < b.id) :
    idsSorted (msgs ++ [a, b]) := by
  rw [idsSorted, List.chain'_append]
  refine ⟨h, List.chain'_cons.mpr ⟨hab, List.chain'_singleton b⟩, ?_⟩
  intro x hx y hy
  have hxm : x ∈ msgs := List.mem_of_mem_getLast? hx
  have hya : a = y := by simpa using hy
  subst hya
  exact ha x hxm

lemma sendMessage_rejected (env : SendEnv) (s : ChatState)
    (h : ((jsTrim s.inputMessage).isEmpty || sessionFalsy s.sessionId) = true) :
    sendMessage env s = s := by
  simp [sendMessage, h]

lemma sendMessage_admitted (env : SendEnv) (s : ChatState)
    (h1 : (jsTrim s.inputMessage).isEmpty = false)
    (h2 : sessionFalsy s.sessionId = false) :
    sendMessage env s =
      { s with
        messages := applyOutcome (env.sendNow + 1) env.catchNow
          (classify (env.result.map List.flatten))
          (s.messages ++ [userMsg env.sendNow s.inputMessage]
            ++ [pendingBot env.sendNow])
        inputMessage := []
        isSending := false } := by
  simp [sendMessage, h1, h2]

lemma fresh_with_user (t : Nat) (text : JStr) (msgs : List Message)
    (h : ∀ m ∈ msgs, m.id ≠ t + 1) :
    ∀ m ∈ msgs ++ [userMsg t text], m.id ≠ t + 1 := by
  intro m hm
  rcases List.mem_append.mp hm with hm | hm
  · exact h m hm
  · rcases List.mem_singleton.mp hm with rfl
    simp [userMsg]

lemma sendMessage_success_eq (env : SendEnv) (s : ChatState) (chunks : List JStr)
    (h1 : (jsTrim s.inputMessage).isEmpty = false)
    (h2 : sessionFalsy s.sessionId = false)
    (hres : env.result = .ok chunks)
    (hdata : jsStartsWith (jsTrim chunks.flatten) (str "data:") = true)
    (hfresh : ∀ m ∈ s.messages, m.id ≠ env.sendNow + 1) :
    sendMessage env s =
      { s with
        messages := s.messages ++ [userMsg env.sendNow s.inputMessage,
          completedBot env.sendNow (jsTrim ((jsTrim chunks.flatten).drop 5))],
        inputMessage := [], isSending := false } := by
  rw [sendMessage_admitted env s h1 h2, hres]
  rw [show (Except.map List.flatten (Except.ok chunks) : Except JStr JStr) =
      .ok chunks.flatten from rfl]
  rw [classify_ok_data _ hdata,
    applyOutcome_success_eq _ _ _ _ _ (by simp [pendingBot])
      (fresh_with_user env.sendNow s.inputMessage s.messages hfresh)]
  simp [pendingBot, completedBot]

lemma sendMessage_malformed_eq (env : SendEnv) (s : ChatState) (chunks : List JStr)
    (h1 : (jsTrim s.inputMessage).isEmpty = false)
    (h2 : sessionFalsy s.sessionId = false)
    (hres : env.result = .ok chunks)
    (hdata : jsStartsWith (jsTrim chunks.flatten) (str "data:") = false)
    (hne : (jsTrim chunks.flatten).isEmpty = false)
    (hfresh : ∀ m ∈ s.messages, m.id ≠ env.sendNow + 1) :
    sendMessage env s =
      { s with
        messages := s.messages ++ [userMsg env.sendNow s.inputMessage,
          malformedBot env.sendNow],
        inputMessage := [], isSending := false } := by
  rw [sendMessage_admitted env s h1 h2, hres]
  rw [show (Except.map List.flatten (Except.ok chunks) : Except JStr JStr) =
      .ok chunks.flatten from rfl]
  rw [classify_ok_malformed _ hdata hne,
    applyOutcome_malformed_eq _ _ _ _ (by simp [pendingBot])
      (fresh_with_user env.sendNow s.inputMessage s.messages hfresh)]
  simp [pendingBot, malformedBot]

lemma sendMessage_empty_eq (env : SendEnv) (s : ChatState) (chunks : List JStr)
    (h1 : (jsTrim s.inputMessage).isEmpty = false)
    (h2 : sessionFalsy s.sessionId = false)
    (hres : env.result = .ok chunks)
    (hemp : (jsTrim chunks.flatten).isEmpty = true)
    (hfresh : ∀ m ∈ s.messages, m.id ≠ env.sendNow + 1) :
    sendMessage env s =
      { s with
        messages := s.messages ++ [userMsg env.sendNow s.inputMessage,
          noResponseBot env.sendNow],
        inputMessage := [], isSending := false } := by
  rw [sendMessage_admitted env s h1 h2, hres]
  rw [show (Except.map List.flatten (Except.ok chunks) : Except JStr JStr) =
      .ok chunks.flatten from rfl]
  rw [classify_ok_empty _ hemp,
    applyOutcome_empty_eq _ _ _ _ (by simp [pendingBot])
      (fresh_with_user env.sendNow s.inputMessage s.messages hfresh)]
  simp [pendingBot, noResponseBot]

lemma sendMessage_transport_eq (env : SendEnv) (s : ChatState) (d : JStr)
    (h1 : (jsTrim s.inputMessage).isEmpty = false)
    (h2 : sessionFalsy s.sessionId = false)
    (hres : env.result = .error d)
    (hfresh : ∀ m ∈ s.messages, m.id ≠ env.sendNow + 1) :
    sendMessage env s =
      { s with
        messages := s.messages ++ [userMsg env.sendNow s.inputMessage,
          transportBot env.catchNow d],
        inputMessage := [], isSending := false } := by
  rw [sendMessage_admitted env s h1 h2, hres]
  rw [show (Except.map List.flatten (Except.error d) : Except JStr JStr) =
      .error d from rfl]
  rw [show classify (.error d) = .transportError d from rfl,
    applyOutcome_transport_eq _ _ _ _ _ (by simp [pendingBot])
      (fresh_with_user env.sendNow s.inputMessage s.messages hfresh)]
  simp

lemma sendMessage_idsSorted (env : SendEnv) (s : ChatState)
    (hs : idsSorted s.messages)
    (hlt : ∀ m ∈ s.messages, m.id < env.sendNow)
    (hcn : env.sendNow ≤ env.catchNow) :
    idsSorted (sendMessage env s).messages := by
  by_cases h1 : (jsTrim s.inputMessage).isEmpty = true
  · rw [sendMessage_rejected env s (by simp [h1])]
    exact hs
  by_cases h2 : sessionFalsy s.sessionId = true
  · rw [sendMessage_rejected env s (by simp [h2])]
    exact hs
  rw [Bool.not_eq_true] at h1 h2
  have hfresh : ∀ m ∈ s.messages, m.id ≠ env.sendNow + 1 := fun m hm => by
    have := hlt m hm
    omega
  have huser : ∀ m ∈ s.messages, m.id < (userMsg env.sendNow s.inputMessage).id :=
    fun m hm => by simpa [userMsg] using hlt m hm
  cases hres : env.result with
  | error d =>
      rw [sendMessage_transport_eq env s d h1 h2 hres hfresh]
      exact idsSorted_append_two hs huser
        (by simp only [userMsg, transportBot]; omega)
  | ok chunks =>
      by_cases hd : jsStartsWith (jsTrim chunks.flatten) (str "data:") = true
      · rw [sendMessage_success_eq env s chunks h1 h2 hres hd hfresh]
        exact idsSorted_append_two hs huser
          (by simp only [userMsg, completedBot]; omega)
      by_cases hemp : (jsTrim chunks.flatten).isEmpty = true
      · rw [sendMessage_empty_eq env s chunks h1 h2 hres hemp hfresh]
        exact idsSorted_append_two hs huser
          (by simp only [userMsg, noResponseBot]; omega)
      rw [Bool.not_eq_true] at hd hemp
      rw [sendMessage_malformed_eq env s chunks h1 h2 hres hd hemp hfresh]
      exact idsSorted_append_two hs huser
        (by simp only [userMsg, malformedBot]; omega)

/-! ### Claim theorems -/

/-- C1: every completed exchange is classified by the decision table
evaluated in order: a request-level exception yields
`transportError detail`; otherwise, a trimmed body beginning with the
literal marker `data:` yields `success` of the remainder after the
5-character marker, trimmed; otherwise a non-empty trimmed body
yields `malformedResponse`; an empty trimmed body yields
`emptyResponse`. -/
theorem classify_decision_table (result : Except JStr JStr) :
    (∀ detail, result = .error detail →
      classify result = .transportError detail) ∧
    (∀ body, result = .ok body →
      (jsStartsWith (jsTrim body) (str "data:") = true →
        classify result = .success (jsTrim ((jsTrim body).drop 5))) ∧
      (jsStartsWith (jsTrim body) (str "data:") = false →
        jsTrim body ≠ [] → classify result = .malformedResponse) ∧
      (jsTrim body = [] → classify result = .emptyResponse)) := by
  constructor
  · rintro d rfl; rfl
  · rintro body rfl
    refine ⟨fun h => classify_ok_data body h, fun hd hne => ?_, fun hemp => ?_⟩
    · exact classify_ok_malformed body hd (by simp_all)
    · exact classify_ok_empty body (by simp [hemp])

/-- Witness for C1 at a concrete successful frame. -/
theorem classify_decision_table_witness :
    classify (.ok (str "  data: Hi there ")) = .success (str "Hi there") := by
  have h := ((classify_decision_table (.ok (str "  data: Hi there "))).2
    (str "  data: Hi there ") rfl).1 (by decide)
  rw [h]
  decide

/-- C2: when the drained trimmed body begins with `data:`, the send
mutates the pending placeholder in place — same id (`sendNow + 1`)
and same final position, text set to the trimmed payload, state
complete (`isStreaming = false`, `isError = false`) — while the user
message and every pre-existing message are unchanged. -/
theorem send_success_mutates_placeholder (env : SendEnv) (s : ChatState)
    (chunks : List JStr)
    (h1 : (jsTrim s.inputMessage).isEmpty = false)
    (h2 : sessionFalsy s.sessionId = false)
    (hres : env.result = .ok chunks)
    (hdata : jsStartsWith (jsTrim chunks.flatten) (str "data:") = true)
    (hfresh : ∀ m ∈ s.messages, m.id ≠ env.sendNow + 1) :
    sendMessage env s =
      { s with
        messages := s.messages ++ [userMsg env.sendNow s.inputMessage,
          completedBot env.sendNow (jsTrim ((jsTrim chunks.flatten).drop 5))],
        inputMessage := [], isSending := false } ∧
    (completedBot env.sendNow (jsTrim ((jsTrim chunks.flatten).drop 5))).id =
      (pendingBot env.sendNow).id ∧
    (completedBot env.sendNow (jsTrim ((jsTrim chunks.flatten).drop 5))).isStreaming
      = false ∧
    (completedBot env.sendNow (jsTrim ((jsTrim chunks.flatten).drop 5))).isError
      = false :=
  ⟨sendMessage_success_eq env s chunks h1 h2 hres hdata hfresh, rfl, rfl, rfl⟩

/-- Witness for C2: concrete send of `"hi"` answered by
`"data: Hi there"`. -/
theorem send_success_mutates_placeholder_witness :
    sendMessage ⟨10, 11, .ok [str "data: Hi there"]⟩ sampleChat =
      { sampleChat with
        messages := sampleChat.messages ++ [userMsg 10 (str "hi"),
          completedBot 10
            (jsTrim ((jsTrim (List.flatten [str "data: Hi there"])).drop 5))],
        inputMessage := [], isSending := false } :=
  (send_success_mutates_placeholder ⟨10, 11, .ok [str "data: Hi there"]⟩
    sampleChat [str "data: Hi there"]
    (by decide) (by decide) rfl (by decide) (by decide)).1

/-- C3: when the network call throws, the placeholder is removed and
a brand-new error message (different id, `isError = true`, text
derived from the exception detail) is appended last; the conversation
grows by exactly two messages relative to before the send. -/
theorem send_transport_deletes_and_appends (env : SendEnv) (s : ChatState)
    (d : JStr)
    (h1 : (jsTrim s.inputMessage).isEmpty = false)
    (h2 : sessionFalsy s.sessionId = false)
    (hres : env.result = .error d)
    (hfresh : ∀ m ∈ s.messages, m.id ≠ env.sendNow + 1)
    (hclock : env.sendNow ≤ env.catchNow) :
    sendMessage env s =
      { s with
        messages := s.messages ++ [userMsg env.sendNow s.inputMessage,
          transportBot env.catchNow d],
        inputMessage := [], isSending := false } ∧
    (transportBot env.catchNow d).id ≠ (pendingBot env.sendNow).id ∧
    (transportBot env.catchNow d).isError = true ∧
    (transportBot env.catchNow d).text = transportText d ∧
    (sendMessage env s).messages.length = s.messages.length + 2 ∧
    (∀ m ∈ (sendMessage env s).messages, m.id ≠ (pendingBot env.sendNow).id) := by
  have heq := sendMessage_transport_eq env s d h1 h2 hres hfresh
  refine ⟨heq, ?_, rfl, rfl, ?_, ?_⟩
  · simp only [transportBot, pendingBot]
    omega
  · rw [heq]
    simp
  · intro m hm
    rw [heq] at hm
    simp only [List.mem_append, List.mem_cons, List.not_mem_nil, or_false] at hm
    rcases hm with hm | hm | hm
    · simpa [pendingBot] using hfresh m hm
    · subst hm
      simp [userMsg, pendingBot]
    · subst hm
      simp only [transportBot, pendingBot]
      omega

/-- Witness for C3: concrete send failing with a thrown error. -/
theorem send_transport_deletes_and_appends_witness :
    sendMessage ⟨10, 12, .error (str "boom")⟩ sampleChat =
      { sampleChat with
        messages := sampleChat.messages ++ [userMsg 10 (str "hi"),
          transportBot 12 (str "boom")],
        inputMessage := [], isSending := false } :=
  (send_transport_deletes_and_appends ⟨10, 12, .error (str "boom")⟩
    sampleChat (str "boom")
    (by decide) (by decide) rfl (by decide) (by decide)).1

/-- C4: with an HTTP-successful response, a non-empty trimmed body
lacking the marker mutates the placeholder in place to an error with
the fixed malformed-response literal, and an empty trimmed body
mutates it in place to an error with the distinct fixed no-response
literal; both mutations keep the placeholder id and position. -/
theorem send_bad_body_mutates_placeholder (env : SendEnv) (s : ChatState)
    (chunks : List JStr)
    (h1 : (jsTrim s.inputMessage).isEmpty = false)
    (h2 : sessionFalsy s.sessionId = false)
    (hres : env.result = .ok chunks)
    (hfresh : ∀ m ∈ s.messages, m.id ≠ env.sendNow + 1) :
    (jsStartsWith (jsTrim chunks.flatten) (str "data:") = false →
      (jsTrim chunks.flatten).isEmpty = false →
      sendMessage env s =
        { s with
          messages := s.messages ++ [userMsg env.sendNow s.inputMessage,
            malformedBot env.sendNow],
          inputMessage := [], isSending := false }) ∧
    ((jsTrim chunks.flatten).isEmpty = true →
      sendMessage env s =
        { s with
          messages := s.messages ++ [userMsg env.sendNow s.inputMessage,
            noResponseBot env.sendNow],
          inputMessage := [], isSending := false }) ∧
    (malformedBot env.sendNow).id = (pendingBot env.sendNow).id ∧
    (noResponseBot env.sendNow).id = (pendingBot env.sendNow).id ∧
    (malformedBot env.sendNow).isError = true ∧
    (noResponseBot env.sendNow).isError = true ∧
    (malformedBot env.sendNow).text = malformedText ∧
    (noResponseBot env.sendNow).text = noResponseText ∧
    malformedText ≠ noResponseText :=
  ⟨fun hd hne => sendMessage_malformed_eq env s chunks h1 h2 hres hd hne hfresh,
   fun hemp => sendMessage_empty_eq env s chunks h1 h2 hres hemp hfresh,
   rfl, rfl, rfl, rfl, rfl, rfl, by decide⟩

/-- Witness for C4: concrete send answered by the body `"garbage"`. -/
theorem send_bad_body_mutates_placeholder_witness :
    sendMessage ⟨10, 11, .ok [str "garbage"]⟩ sampleChat =
      { sampleChat with
        messages := sampleChat.messages ++ [userMsg 10 (str "hi"),
          malformedBot 10],
        inputMessage := [], isSending := false } :=
  (send_bad_body_mutates_placeholder ⟨10, 11, .ok [str "garbage"]⟩
    sampleChat [str "garbage"]
    (by decide) (by decide) rfl (by decide)).1 (by decide) (by decide)

/-- C7: the result of a send depends only on the concatenation of the
received chunks: two chunk sequences with equal concatenation produce
identical final states. -/
theorem send_chunk_split_irrelevant (s : ChatState) (t0 t1 : Nat)
    (c1 c2 : List JStr) (h : c1.flatten = c2.flatten) :
    sendMessage ⟨t0, t1, .ok c1⟩ s = sendMessage ⟨t0, t1, .ok c2⟩ s := by
  unfold sendMessage
  simp only [Except.map, h]

/-- Witness for C7: `"data: Hi"` split into two chunks versus one. -/
theorem send_chunk_split_irrelevant_witness :
    sendMessage ⟨3, 4, .ok [str "da", str "ta: Hi"]⟩ sampleChat =
      sendMessage ⟨3, 4, .ok [str "data: Hi"]⟩ sampleChat :=
  send_chunk_split_irrelevant sampleChat 3 4 _ _ (by decide)

/-- C10: after any admitted send completes — whatever the outcome —
the in-flight latch is down and the input text is cleared. -/
theorem send_resets_latch_and_input (env : SendEnv) (s : ChatState)
    (h1 : (jsTrim s.inputMessage).isEmpty = false)
    (h2 : sessionFalsy s.sessionId = false) :
    (sendMessage env s).isSending = false ∧
    (sendMessage env s).inputMessage = [] := by
  rw [sendMessage_admitted env s h1 h2]
  exact ⟨rfl, rfl⟩

/-- Witness for C10 at a concrete admitted send. -/
theorem send_resets_latch_and_input_witness :
    (sendMessage ⟨10, 11, .ok [str "data: Hi"]⟩ sampleChat).isSending = false ∧
    (sendMessage ⟨10, 11, .ok [str "data: Hi"]⟩ sampleChat).inputMessage = [] :=
  send_resets_latch_and_input ⟨10, 11, .ok [str "data: Hi"]⟩ sampleChat
    (by decide) (by decide)

/-- C5: a send attempt leaves the whole client state unchanged when
the input trims empty, when no session is set, or when a send is
already outstanding; the outstanding-send latch is enforced at both
entry points (send button and Enter key), and the two other
conditions additionally by `sendMessage` itself. -/
theorem send_rejected_noop (env : SendEnv) (e : KeyEvent) (s : ChatState)
    (h : (jsTrim s.inputMessage).isEmpty = true ∨
      sessionFalsy s.sessionId = true ∨ s.isSending = true) :
    clickSend env s = s ∧
    (handleChatKeyDown e env s).1 = s ∧
    ((jsTrim s.inputMessage).isEmpty = true ∨ sessionFalsy s.sessionId = true →
      sendMessage env s = s) := by
  have hsend : (jsTrim s.inputMessage).isEmpty = true ∨
      sessionFalsy s.sessionId = true → sendMessage env s = s := by
    intro h'
    apply sendMessage_rejected
    rcases h' with h' | h' <;> simp [h']
  rcases h with h | h | h
  · refine ⟨?_, ?_, hsend⟩
    · simp [clickSend, sendButtonDisabled, h]
    · unfold handleChatKeyDown
      split
      · simp [h]
      · rfl
  · refine ⟨?_, ?_, hsend⟩
    · unfold clickSend
      split
      · rfl
      · exact hsend (Or.inr h)
    · unfold handleChatKeyDown
      split
      · split
        · simpa using hsend (Or.inr h)
        · rfl
      · rfl
  · refine ⟨?_, ?_, hsend⟩
    · simp [clickSend, sendButtonDisabled, h]
    · unfold handleChatKeyDown
      split
      · simp [h]
      · rfl

/-- Witness for C5: attempts while a send is outstanding change
nothing. -/
theorem send_rejected_noop_witness :
    clickSend ⟨7, 8, .ok [str "data: x"]⟩ busyChat = busyChat ∧
    (handleChatKeyDown ctrlEnter ⟨7, 8, .ok [str "data: x"]⟩ busyChat).1 =
      busyChat ∧
    ((jsTrim busyChat.inputMessage).isEmpty = true ∨
      sessionFalsy busyChat.sessionId = true →
      sendMessage ⟨7, 8, .ok [str "data: x"]⟩ busyChat = busyChat) :=
  send_rejected_noop ⟨7, 8, .ok [str "data: x"]⟩ ctrlEnter busyChat
    (Or.inr (Or.inr (by decide)))

/-- C6: `start()` establishes a session exactly when the call
succeeds: on success the session id comes from the response and the
conversation becomes the single complete bot greeting; on failure the
session id is null and the conversation is untouched (the error is
surfaced outside the conversation, with no automatic retry). -/
theorem start_session_iff_success (env : StartEnv) (s : ChatState) :
    (∀ sid, env.result = .ok sid →
      startChatSession env s =
        { s with
          isConnecting := false
          sessionId := some sid
          messages := [greetingMsg env.now] } ∧
      (startChatSession env s).messages.length = 1 ∧
      (greetingMsg env.now).sender = .bot ∧
      (greetingMsg env.now).isStreaming = false ∧
      (greetingMsg env.now).isError = false ∧
      (greetingMsg env.now).text = greetingText) ∧
    (∀ detail, env.result = .error detail →
      (startChatSession env s).sessionId = none ∧
      (startChatSession env s).messages = s.messages) := by
  constructor
  · rintro sid hres
    have heq : startChatSession env s =
        { s with
          isConnecting := false
          sessionId := some sid
          messages := [greetingMsg env.now] } := by
      simp [startChatSession, hres]
    exact ⟨heq, by rw [heq]; rfl, rfl, rfl, rfl, rfl⟩
  · rintro d hres
    simp [startChatSession, hres]

/-- Witness for C6 at a concrete successful connect. -/
theorem start_session_iff_success_witness :
    startChatSession ⟨5, .ok (str "sess")⟩ initialState =
      { initialState with
        isConnecting := false
        sessionId := some (str "sess")
        messages := [greetingMsg 5] } :=
  ((start_session_iff_success ⟨5, .ok (str "sess")⟩ initialState).1
    (str "sess") rfl).1

/-- C8 counterexample: Ctrl+Enter — a modifier key held together with
Enter, Shift up — both suppresses the default line break and triggers
the send: the conversation grows by two messages.  This refutes the
claim that Enter combined with any modifier key never triggers send
and instead inserts a literal line break. -/
theorem keydown_ctrl_enter_sends :
    ctrlEnter.ctrlKey = true ∧
    (handleChatKeyDown ctrlEnter ⟨10, 10, .ok [str "data: ok"]⟩ sampleChat).2 =
      true ∧
    (handleChatKeyDown ctrlEnter ⟨10, 10, .ok [str "data: ok"]⟩
      sampleChat).1.messages.length = sampleChat.messages.length + 2 := by
  decide

/-- C8 (amended): an Enter keypress without the Shift key triggers
send exactly when the gate holds (input trims non-empty and no send
outstanding) and always suppresses the default; an Enter keypress
with Shift held never triggers send and leaves the default line-break
insertion in place.  Modifier keys other than Shift do not suppress
sending. -/
theorem keydown_enter_shift_rule (e : KeyEvent) (env : SendEnv) (s : ChatState) :
    (e.key = str "Enter" → e.shiftKey = false →
      ((jsTrim s.inputMessage).isEmpty = false → s.isSending = false →
        handleChatKeyDown e env s = (sendMessage env s, true)) ∧
      ((jsTrim s.inputMessage).isEmpty = true ∨ s.isSending = true →
        handleChatKeyDown e env s = (s, true))) ∧
    (e.shiftKey = true → handleChatKeyDown e env s = (s, false)) ∧
    (e.key ≠ str "Enter" → handleChatKeyDown e env s = (s, false)) := by
  refine ⟨fun hk hs => ⟨fun hne hsend => ?_, fun hrej => ?_⟩,
    fun hs => ?_, fun hk => ?_⟩
  · simp [handleChatKeyDown, hk, hs, hne, hsend]
  · rcases hrej with h | h <;> simp [handleChatKeyDown, hk, hs, h]
  · simp [handleChatKeyDown, hs]
  · simp [handleChatKeyDown, hk]

/-- Witness for C8 (amended): Shift+Enter changes nothing and lets
the line break through. -/
theorem keydown_enter_shift_rule_witness :
    handleChatKeyDown shiftEnter ⟨10, 10, .ok [str "data: ok"]⟩ sampleChat =
      (sampleChat, false) :=
  ((keydown_enter_shift_rule shiftEnter ⟨10, 10, .ok [str "data: ok"]⟩
    sampleChat).2.1) (by decide)

/-- C9 counterexample: with `Date.now()` returning the same
millisecond reading (5) for the connect and for the following send,
the greeting and the user message receive the same id — a reachable
conversation whose message ids are neither unique nor increasing. -/
theorem run_duplicate_message_ids :
    (run initialState duplicateIdTrace).messages.map Message.id = [5, 5, 6] ∧
    ¬ ((run initialState duplicateIdTrace).messages.map Message.id).Nodup := by
  decide

/-- C9 (amended): message ids are unique and strictly increasing in
append order provided every send-issuing event reads a start clock
strictly above every id already present and a catch-time clock no
earlier than its start clock; `Date.now()` alone does not guarantee
this within a single millisecond. -/
theorem step_preserves_id_monotonicity (s : ChatState) (op : Op)
    (hs : idsSorted s.messages) (hc : opClockOK s op) :
    idsSorted (step s op).messages ∧
    ((step s op).messages.map Message.id).Nodup := by
  have main : idsSorted (step s op).messages := by
    cases op with
    | start env =>
        show idsSorted (startChatSession env s).messages
        cases hres : env.result with
        | ok sid => simp [startChatSession, hres, idsSorted]
        | error d => simpa [startChatSession, hres] using hs
    | typeInput t =>
        show idsSorted (setInputMessage t s).messages
        rw [setInputMessage_messages]
        exact hs
    | click env =>
        obtain ⟨hlt, hcn⟩ := hc
        show idsSorted (clickSend env s).messages
        unfold clickSend
        split
        · exact hs
        · exact sendMessage_idsSorted env s hs hlt hcn
    | keyDown e env =>
        obtain ⟨hlt, hcn⟩ := hc
        show idsSorted (handleChatKeyDown e env s).1.messages
        unfold handleChatKeyDown
        split
        · split
          · exact sendMessage_idsSorted env s hs hlt hcn
          · exact hs
        · exact hs
  exact ⟨main, idsSorted_nodup main⟩

/-- Witness for C9 (amended): a send whose start clock exceeds every
existing id keeps ids sorted and duplicate-free. -/
theorem step_preserves_id_monotonicity_witness :
    idsSorted (step sampleChat (.click ⟨10, 11, .ok [str "data: hi"]⟩)).messages ∧
    ((step sampleChat
      (.click ⟨10, 11, .ok [str "data: hi"]⟩)).messages.map Message.id).Nodup :=
  step_preserves_id_monotonicity sampleChat (.click ⟨10, 11, .ok [str "data: hi"]⟩)
    (List.chain'_singleton (greetingMsg 1)) ⟨by decide, by decide⟩

end FordSupport
